import Mathlib

/-!
# Verification of the DGG-Debate-Timer session coordinator

A shallow embedding, in Lean 4, of the session/state coordinator of
`src/index.js`: the single mutable `current` session record, the Deepgram
`Transcript` handler (word counting and per-speaker duration accumulation),
the `Open`/`Close` lifecycle handlers, `stopStreaming` with its escalation
timers, the synchronous prefix of `startStreaming` (stop-then-replace, then
URL resolution), the fail-fast timeout closure, the `analyticsSnapshot`
read, and the `/start` and `/stop` REST endpoints.

Modelling conventions, matching the JavaScript semantics of the source:

* Word timings are rationals (`ℚ`). JavaScript numbers are floats; the
  claims under study involve only finite, NaN-free timing arithmetic, which
  `ℚ` models exactly (`Math.max`, `+`, `-`).
* `x || d` on an optional number (falsy coalescing: `undefined`/`null` and
  `0` both fall through) is `jsOrQ`; `x ?? d` (nullish coalescing: only
  `undefined`/`null` falls through) is `Option.getD`.
* A JavaScript `Map` keyed by speaker ids is an insertion-ordered
  association list: `Map.get` is `mapGet`, `Map.set` is `mapSet`
  (in-place replacement, new keys appended).
* Non-null object references (`current.connection`, `current.ff`) are
  modelled as `Option ℕ`, the number identifying the concrete connection
  object / child process, so that theorems can say *which* connection a
  timer finishes and *which* process a signal reaches.
* Deepgram speaker tags are modelled as strings (the code coerces them to
  map keys and JSON object keys, both stringly).
* `setTimeout` closures read the mutable `current` at *fire* time; each
  timer is therefore modelled as a pure function of the state at fire time
  (`escalationFire`, `failFastFire`), and the scheduling call records only
  the delay and signal that the source hard-codes.
* `process.platform`-dependent labels, console output, and SSE transport
  are presentation-only and are not part of the state the claims mention;
  they are omitted.
-/

namespace DGG

/-- `v || d` on an optional rational: JavaScript falsy coalescing, where
both a missing value and `0` fall back to the default. -/
def jsOrQ (v : Option ℚ) (d : ℚ) : ℚ :=
  match v with
  | none => d
  | some x => if x = 0 then d else x

/-- Truthiness of an optional string (`undefined`/`null` and `''` are
falsy). -/
def jsTruthyStr (v : Option String) : Bool :=
  match v with
  | none => false
  | some s => s ≠ ""

/-- One word of a recognition alternative: `{start, end, speaker}`, every
field possibly absent (the handler defends against each). `end` is a Lean
keyword, hence `end_`. -/
structure Word where
  start : Option ℚ
  end_ : Option ℚ
  speaker : Option String
deriving Repr, DecidableEq

/-- One alternative of a transcript payload: `{transcript, words}`. -/
structure Alt where
  transcript : String
  words : List Word
deriving Repr, DecidableEq

/-- The `channel` field of a transcript payload. -/
structure Channel where
  alternatives : List Alt
deriving Repr, DecidableEq

/-- A `Transcript` event payload: `data?.channel?.alternatives?.[0]` plus
the `is_final` flag. -/
structure TranscriptData where
  channel : Option Channel
  is_final : Bool
deriving Repr, DecidableEq

/-- `data?.channel?.alternatives?.[0]`. -/
def evAlt (d : TranscriptData) : Option Alt :=
  d.channel.bind fun ch => ch.alternatives.head?

/-- `alt?.transcript || ''`. -/
def evText (d : TranscriptData) : String :=
  match evAlt d with
  | none => ""
  | some a => a.transcript

/-- `alt?.words || []` (the handler also checks `Array.isArray`, which the
typed model makes vacuous). -/
def evWords (d : TranscriptData) : List Word :=
  match evAlt d with
  | none => []
  | some a => a.words

/-- `words[0]?.speaker ?? 'unknown'` for a nonempty word list headed by
`w`. -/
def segSpeaker (w : Word) : String :=
  match w.speaker with
  | none => "unknown"
  | some sp => sp

/-- Number of maximal runs of non-whitespace characters:
`(text.match(/\S+/g) || []).length`. -/
def isWsChar (c : Char) : Bool :=
  c = ' ' || c = '\t' || c = '\n' || c = '\r' || c = '\x0b' || c = '\x0c'

/-- Token-run counter: the boolean records whether the previous character
was part of a token. -/
def countRuns : List Char → Bool → ℕ
  | [], _ => 0
  | c :: cs, inTok =>
    if isWsChar c then countRuns cs false
    else (if inTok then 0 else 1) + countRuns cs true

/-- `(text.match(/\S+/g) || []).length`. -/
def countTokens (s : String) : ℕ :=
  countRuns s.data false

/-- `Map.prototype.get`: first binding of the key, if any. -/
def mapGet : List (String × ℚ) → String → Option ℚ
  | [], _ => none
  | (k', v') :: rest, k => if k' = k then some v' else mapGet rest k

/-- `Map.prototype.set`: replace the binding in place if the key is
present (insertion order preserved), else append. -/
def mapSet : List (String × ℚ) → String → ℚ → List (String × ℚ)
  | [], k, v => [(k, v)]
  | (k', v') :: rest, k, v =>
    if k' = k then (k, v) :: rest else (k', v') :: mapSet rest k v

/-- The accumulated duration the analytics expose for a speaker: the map
entry, or `0` when the speaker has never spoken. -/
def lookup0 (m : List (String × ℚ)) (k : String) : ℚ :=
  (mapGet m k).getD 0

/-- The mutable `current` record: the one active session's state. -/
structure Session where
  connection : Option ℕ
  ff : Option ℕ
  opened : Bool
  closed : Bool
  mode : Option String
  url : Option String
  device : Option String
  speakerDurations : List (String × ℚ)
  lastPartialSpeaker : Option String
  lastPartialStart : Option ℚ
  startTimeMs : Option ℕ
  bytesSent : ℕ
  wordsCount : ℕ
deriving Repr, DecidableEq

/-- `analyticsSnapshot()`, parameterised by `Date.now()`. The `speakers`
array of the source is a pointwise re-listing of `speakerDurations` and is
not repeated here. -/
structure Snapshot where
  mode : Option String
  url : Option String
  status : String
  wordsCount : ℕ
  speakerDurations : List (String × ℚ)
  uptimeMs : ℕ
  ingestedSeconds : ℚ
deriving Repr, DecidableEq

def analyticsSnapshot (s : Session) (nowMs : ℕ) : Snapshot :=
  { mode := s.mode
  , url := s.url
  , status := match s.connection with
      | none => "idle"
      | some _ => if s.opened then "streaming" else "connecting"
  , wordsCount := s.wordsCount
  , speakerDurations := s.speakerDurations
  , uptimeMs := match s.startTimeMs with
      | none => 0
      | some t => nowMs - t
  , ingestedSeconds := (s.bytesSent : ℚ) / 32000 }

/-- Outbound SSE messages the coordinator broadcasts. -/
inductive Msg where
  | finalMsg (replace : Bool) (speaker : String) (text : String)
      (start : ℚ) (end_ : ℚ) (speakerDurations : List (String × ℚ))
  | partialMsg (speaker : String) (text : String)
      (start : ℚ) (end_ : ℚ) (speakerDurations : List (String × ℚ))
  | analyticsMsg (snap : Snapshot)
deriving Repr, DecidableEq

/-- The `is_final` branch of the `Transcript` handler, applied after word
counting, to a session `s`, the text, and the nonempty word list
`w :: rest`. -/
def finalStep (nowMs : ℕ) (s : Session) (text : String) (w : Word)
    (rest : List Word) : Session × List Msg :=
  let start := jsOrQ w.start 0
  let stop := jsOrQ (rest.getLastD w).end_ start
  let dur := max 0 (stop - start)
  let prev := jsOrQ (mapGet s.speakerDurations (segSpeaker w)) 0
  let sd := mapSet s.speakerDurations (segSpeaker w) (prev + dur)
  let s2 := { s with speakerDurations := sd
                   , lastPartialSpeaker := none
                   , lastPartialStart := none }
  (s2, [Msg.finalMsg true (segSpeaker w) text start stop sd,
        Msg.analyticsMsg (analyticsSnapshot s2 nowMs)])

/-- The interim branch of the `Transcript` handler (console rendering
omitted): anchor `lastPartialStart` when the speaker changes, then emit the
partial message. -/
def interimStep (s : Session) (text : String) (w : Word)
    (rest : List Word) : Session × List Msg :=
  let s2 := if s.lastPartialSpeaker = some (segSpeaker w) then s
            else { s with lastPartialSpeaker := some (segSpeaker w)
                        , lastPartialStart := w.start }
  let estStart := match s2.lastPartialStart with
    | some v => v
    | none => match w.start with
      | some v => v
      | none => 0
  let estEnd := (rest.getLastD w).end_.getD estStart
  (s2, [Msg.partialMsg (segSpeaker w) text estStart estEnd
          s2.speakerDurations])

/-- The `connection.on(Transcript)` handler. Note that it consults neither
`closed` nor `connection`: its guards are only the emptiness of the text
and of the word list. The surrounding `try`/`catch` swallows exceptions;
the model is total, so the catch is unreachable. -/
def onTranscript (nowMs : ℕ) (s : Session) (d : TranscriptData) :
    Session × List Msg :=
  let text := evText d
  if text = "" then (s, [])
  else match evWords d with
    | [] => (s, [])
    | w :: rest =>
      let s1 := { s with wordsCount := s.wordsCount + countTokens text }
      if d.is_final then finalStep nowMs s1 text w rest
      else interimStep s1 text w rest

/-- A signal dispatch: `(process id, signal name)`. -/
abbrev Sig := ℕ × String

/-- One scheduled escalation timer: the delay and the signal its closure
would send. -/
structure TimerReq where
  delayMs : ℕ
  signal : String
deriving Repr, DecidableEq

/-- What `stopStreaming()` does synchronously: latch `closed`, finish the
connection, send `SIGINT` to the ffmpeg process if any, schedule the two
escalation timers, null out `connection` and `ff`, broadcast a snapshot.
A second call while `closed` returns at once. -/
structure StopOut where
  state : Session
  signalsNow : List Sig
  timers : List TimerReq
  msgs : List Msg
deriving Repr, DecidableEq

def stopStreaming (nowMs : ℕ) (s : Session) : StopOut :=
  if s.closed then ⟨s, [], [], []⟩
  else
    let s1 := { s with closed := true }
    let sigs := match s1.ff with
      | some p => [(p, "SIGINT")]
      | none => []
    let timers := match s1.ff with
      | some _ => [⟨500, "SIGTERM"⟩, ⟨1500, "SIGKILL"⟩]
      | none => []
    let s2 := { s1 with connection := none, ff := none }
    ⟨s2, sigs, timers, [Msg.analyticsMsg (analyticsSnapshot s2 nowMs)]⟩

/-- The body of each escalation `setTimeout` closure at fire time:
`if (current.ff && !current.ff.killed) current.ff.kill(sig)`. It reads the
*then-current* `current.ff` (whatever session now owns it) and the `killed`
flag of that child (true as soon as any earlier `kill()` call succeeded,
not only after exit). -/
def escalationFire (curFF : Option ℕ) (killed : ℕ → Bool)
    (sig : String) : Option Sig :=
  match curFF with
  | none => none
  | some p => if killed p then none else some (p, sig)

/-- The fail-fast `setTimeout` closure at fire time:
`if (!current.opened && current.connection) current.connection.finish()`.
Returns the identity of the connection it finishes, if any — again reading
the *then-current* state, with no memory of which session armed it. -/
def failFastFire (s : Session) : Option ℕ :=
  match s.connection with
  | none => none
  | some c => if s.opened then none else some c

/-- The `connection.on(Close)` handler: if not already closed, latch
`closed`, `SIGINT` the ffmpeg process, null the references, broadcast. -/
def onClose (nowMs : ℕ) (s : Session) :
    Session × List Sig × List Msg :=
  if s.closed then (s, [], [])
  else
    let sigs := match s.ff with
      | some p => [(p, "SIGINT")]
      | none => []
    let s1 := { s with closed := true, connection := none, ff := none }
    (s1, sigs, [Msg.analyticsMsg (analyticsSnapshot s1 nowMs)])

/-- The `connection.on(Open)` handler: mark opened, stamp the wall clock,
spawn ffmpeg (modelled by the fresh process id `ffId`), broadcast. -/
def onOpen (nowMs : ℕ) (ffId : ℕ) (s : Session) : Session × List Msg :=
  let s1 := { s with opened := true, startTimeMs := some nowMs
                   , ff := some ffId }
  (s1, [Msg.analyticsMsg (analyticsSnapshot s1 nowMs)])

/-- The fresh `current` record `startStreaming` installs before any
resolution or connection work. -/
def freshSession (mic : Bool) (url : Option String)
    (device : Option String) : Session :=
  { connection := none
  , ff := none
  , opened := false
  , closed := false
  , mode := some (if mic then ("mic") else ("url"))
  , url := if jsTruthyStr url then url else none
  , device := if jsTruthyStr device then device else none
  , speakerDurations := []
  , lastPartialSpeaker := none
  , lastPartialStart := none
  , startTimeMs := none
  , bytesSent := 0
  , wordsCount := 0 }

/-- Whether `startStreaming` attempts URL resolution: `if (!mic && url)`. -/
def needsResolve (mic : Bool) (url : Option String) : Bool :=
  !mic && jsTruthyStr url

/-- Outcome of `await resolveMediaUrl(url)`: a direct media URL, or a
thrown error (`yt-dlp` and `streamlink` both failed). -/
inductive ResolveOutcome where
  | ok (mediaUrl : String)
  | err
deriving Repr, DecidableEq

/-- The synchronous-prefix model of `startStreaming({mic, url, device})`:
stop the prior session if it has a connection, install a fresh record,
attempt resolution when needed; on resolution failure the exception
propagates (state left at the fresh record), otherwise the Deepgram
connection `newConn` is created, stored, broadcast, and the fail-fast
timer is armed (its closure is `failFastFire`). `Bool` result: whether the
start succeeded. -/
structure StartOut where
  state : Session
  ok : Bool
  signalsNow : List Sig
  timers : List TimerReq
  msgs : List Msg
deriving Repr, DecidableEq

def startStreamingModel (nowMs : ℕ) (s : Session) (mic : Bool)
    (url : Option String) (device : Option String)
    (res : ResolveOutcome) (newConn : ℕ) : StartOut :=
  let stopped := if s.connection.isSome then stopStreaming nowMs s
                 else ⟨s, [], [], []⟩
  let s1 := freshSession mic url device
  if needsResolve mic url ∧ res = ResolveOutcome.err then
    ⟨s1, false, stopped.signalsNow, stopped.timers, stopped.msgs⟩
  else
    let s2 := { s1 with connection := some newConn }
    ⟨s2, true, stopped.signalsNow, stopped.timers,
      stopped.msgs ++ [Msg.analyticsMsg (analyticsSnapshot s2 nowMs)]⟩

/-- HTTP responses of the control endpoints. -/
inductive RestResp where
  | okResp
  | badRequest
  | serverError
deriving Repr, DecidableEq

/-- `POST /start`: `if (!mic && !url) return 400`; otherwise run
`startStreaming`, answering 200 on success and 500 when it throws. -/
def startEndpoint (nowMs : ℕ) (s : Session) (mic : Bool)
    (url : Option String) (device : Option String)
    (res : ResolveOutcome) (newConn : ℕ) : Session × RestResp :=
  if !mic && !jsTruthyStr url then (s, RestResp.badRequest)
  else
    let out := startStreamingModel nowMs s mic url device res newConn
    (out.state, if out.ok then RestResp.okResp else RestResp.serverError)

/-- `POST /stop`: `await stopStreaming(); res.json({ok:true})`. -/
def stopEndpoint (nowMs : ℕ) (s : Session) : Session × RestResp :=
  ((stopStreaming nowMs s).state, RestResp.okResp)

/-- The coordinator's session-level operations, for stating "across any
sequence of operations" invariants. `audioChunk` is the ffmpeg `stdout`
data handler (`bytesSent += chunk.length`; the forward to Deepgram is
external). -/
inductive Op where
  | transcriptEv (nowMs : ℕ) (d : TranscriptData)
  | stopOp (nowMs : ℕ)
  | closeOp (nowMs : ℕ)
  | openOp (nowMs : ℕ) (ffId : ℕ)
  | audioChunk (len : ℕ)
deriving Repr, DecidableEq

def applyOp (s : Session) : Op → Session
  | Op.transcriptEv n d => (onTranscript n s d).1
  | Op.stopOp n => (stopStreaming n s).state
  | Op.closeOp n => (onClose n s).1
  | Op.openOp n f => (onOpen n f s).1
  | Op.audioChunk len => { s with bytesSent := s.bytesSent + len }

/-- The duration the final branch adds for the word list `w :: rest`:
`Math.max(0, (words[last]?.end || start) - (words[0]?.start || 0))`. -/
def finalDur (w : Word) (rest : List Word) : ℚ :=
  max 0 (jsOrQ (rest.getLastD w).end_ (jsOrQ w.start 0) - jsOrQ w.start 0)

/-- The segment start the specification speaks of: the first word's
`start`. -/
def claimStart (d : TranscriptData) : ℚ :=
  ((evWords d).head?.bind Word.start).getD 0

/-- The segment end the specification speaks of: the last word's `end`. -/
def claimEnd (d : TranscriptData) : ℚ :=
  ((evWords d).getLast?.bind Word.end_).getD 0

/-- The specification's per-event duration: `max(0, end - start)`. -/
def claimDur (d : TranscriptData) : ℚ :=
  max 0 (claimEnd d - claimStart d)

/-- A final recognition event attributed to speaker `id`, in the scope of
the specification's duration claim: final, non-ignored (nonempty text and
words), with the first word's `start` and the last word's `end` present
and non-negative (Deepgram word timings are non-negative seconds). -/
def GoodFinal (id : String) (d : TranscriptData) : Prop :=
  d.is_final = true ∧ evText d ≠ "" ∧
  (∃ w rest, evWords d = w :: rest ∧ segSpeaker w = id) ∧
  (∃ s0, (evWords d).head?.bind Word.start = some s0 ∧ 0 ≤ s0) ∧
  (∃ e0, (evWords d).getLast?.bind Word.end_ = some e0 ∧ 0 ≤ e0)

/-- Folding the `Transcript` handler over a run of events. -/
def runEvents (nowMs : ℕ) (s : Session) (evs : List TranscriptData) :
    Session :=
  evs.foldl (fun st d => (onTranscript nowMs st d).1) s

/-- Folding an arbitrary run of coordinator operations. -/
def runOps (s : Session) (ops : List Op) : Session :=
  ops.foldl applyOp s

/-- The pristine `current` record of lines 331–346: no connection, no
process, nothing accumulated. -/
def initialSession : Session :=
  { connection := none
  , ff := none
  , opened := false
  , closed := false
  , mode := none
  , url := none
  , device := none
  , speakerDurations := []
  , lastPartialSpeaker := none
  , lastPartialStart := none
  , startTimeMs := none
  , bytesSent := 0
  , wordsCount := 0 }

/-- A concrete mid-stream session: Deepgram connection `1`, ffmpeg
process `7`, speaker `0` credited `5` seconds, `7` words counted. -/
def sampleActive : Session :=
  { connection := some 1
  , ff := some 7
  , opened := true
  , closed := false
  , mode := some ("url")
  , url := some ("https://example.test/live")
  , device := none
  , speakerDurations := [(("0" : String), (5 : ℚ))]
  , lastPartialSpeaker := none
  , lastPartialStart := none
  , startTimeMs := some 100
  , bytesSent := 64000
  , wordsCount := 7 }

/-- A concrete final event: speaker `0`, `"hello world"`, first word
starting at `1`, last word ending at `7/2`. -/
def sampleFinalEv : TranscriptData :=
  ⟨some ⟨[⟨"hello world", [⟨some 1, none, some ("0")⟩, ⟨none, some (7/2), none⟩]⟩]⟩, true⟩

/-- A concrete interim event: same utterance as `sampleFinalEv`, not yet
final. -/
def sampleInterimEv : TranscriptData :=
  ⟨some ⟨[⟨"hello world", [⟨some 1, none, some ("0")⟩, ⟨none, some (7/2), none⟩]⟩]⟩, false⟩

/-- A concrete final event with no word timings at all: one word, speaker
`1`, both `start` and `end` absent. -/
def sampleMalformedEv : TranscriptData :=
  ⟨some ⟨[⟨"uh", [⟨none, none, some ("1")⟩]⟩]⟩, true⟩

/-! ## Map lemmas -/

theorem mapGet_mapSet_self (m : List (String × ℚ)) (k : String) (v : ℚ) :
    mapGet (mapSet m k v) k = some v := by
  induction m with
  | nil => simp [mapGet, mapSet]
  | cons p rest ih =>
    by_cases h : p.1 = k
    · simp [mapGet, mapSet, h]
    · simp [mapGet, mapSet, h, ih]

theorem mapGet_mapSet_ne (m : List (String × ℚ)) (k j : String) (v : ℚ)
    (h : j ≠ k) : mapGet (mapSet m k v) j = mapGet m j := by
  have hkj : ¬ k = j := fun hh => h hh.symm
  induction m with
  | nil => simp [mapGet, mapSet, hkj]
  | cons p rest ih =>
    by_cases hpk : p.1 = k
    · subst hpk
      simp [mapGet, mapSet, hkj]
    · simp [mapGet, mapSet, hpk, ih]

theorem lookup0_mapSet_self (m : List (String × ℚ)) (k : String) (v : ℚ) :
    lookup0 (mapSet m k v) k = v := by
  simp [lookup0, mapGet_mapSet_self]

theorem lookup0_mapSet_ne (m : List (String × ℚ)) (k j : String) (v : ℚ)
    (h : j ≠ k) : lookup0 (mapSet m k v) j = lookup0 m j := by
  simp [lookup0, mapGet_mapSet_ne m k j v h]

theorem jsOrQ_mapGet_eq_lookup0 (m : List (String × ℚ)) (k : String) :
    jsOrQ (mapGet m k) 0 = lookup0 m k := by
  cases h : mapGet m k with
  | none => simp [jsOrQ, lookup0, h]
  | some x =>
    by_cases hx : x = 0 <;> simp [jsOrQ, lookup0, h, hx]

theorem jsOrQ_some_zero (x : ℚ) : jsOrQ (some x) 0 = x := by
  by_cases hx : x = 0 <;> simp [jsOrQ, hx]

theorem getLast?_cons_getLastD (w : Word) (rest : List Word) :
    (w :: rest).getLast? = some (rest.getLastD w) := by
  rw [List.getLast?_cons, List.getLastD_eq_getLast?]

/-! ## Handler characterisations -/

theorem onTranscript_empty_text (n : ℕ) (s : Session) (d : TranscriptData)
    (hT : evText d = "") : onTranscript n s d = (s, []) := by
  simp [onTranscript, hT]

theorem onTranscript_empty_words (n : ℕ) (s : Session) (d : TranscriptData)
    (hW : evWords d = []) : onTranscript n s d = (s, []) := by
  by_cases hT : evText d = "" <;> simp [onTranscript, hT, hW]

theorem onTranscript_final_eq (n : ℕ) (s : Session) (d : TranscriptData)
    (w : Word) (rest : List Word) (hT : evText d ≠ "")
    (hW : evWords d = w :: rest) (hF : d.is_final = true) :
    onTranscript n s d =
      finalStep n { s with wordsCount := s.wordsCount + countTokens (evText d) }
        (evText d) w rest := by
  simp [onTranscript, hT, hW, hF]

theorem onTranscript_interim_eq (n : ℕ) (s : Session) (d : TranscriptData)
    (w : Word) (rest : List Word) (hT : evText d ≠ "")
    (hW : evWords d = w :: rest) (hF : d.is_final = false) :
    onTranscript n s d =
      interimStep { s with wordsCount := s.wordsCount + countTokens (evText d) }
        (evText d) w rest := by
  simp [onTranscript, hT, hW, hF]

theorem finalStep_fst (n : ℕ) (s : Session) (text : String) (w : Word)
    (rest : List Word) :
    (finalStep n s text w rest).1 =
      { s with
        speakerDurations := mapSet s.speakerDurations (segSpeaker w)
          (lookup0 s.speakerDurations (segSpeaker w) + finalDur w rest)
      , lastPartialSpeaker := none
      , lastPartialStart := none } := by
  simp [finalStep, finalDur, jsOrQ_mapGet_eq_lookup0]

theorem finalStep_msgs_ne_nil (n : ℕ) (s : Session) (text : String)
    (w : Word) (rest : List Word) : (finalStep n s text w rest).2 ≠ [] := by
  simp [finalStep]

theorem interimStep_sd (s : Session) (text : String) (w : Word)
    (rest : List Word) :
    (interimStep s text w rest).1.speakerDurations = s.speakerDurations := by
  by_cases h : s.lastPartialSpeaker = some (segSpeaker w) <;>
    simp [interimStep, h]

theorem interimStep_wordsCount (s : Session) (text : String) (w : Word)
    (rest : List Word) :
    (interimStep s text w rest).1.wordsCount = s.wordsCount := by
  by_cases h : s.lastPartialSpeaker = some (segSpeaker w) <;>
    simp [interimStep, h]

theorem interimStep_msgs_ne_nil (s : Session) (text : String) (w : Word)
    (rest : List Word) : (interimStep s text w rest).2 ≠ [] := by
  by_cases h : s.lastPartialSpeaker = some (segSpeaker w) <;>
    simp [interimStep, h]

theorem stopStreaming_state (n : ℕ) (s : Session) :
    (stopStreaming n s).state =
      if s.closed then s
      else { s with closed := true, connection := none, ff := none } := by
  by_cases h : s.closed <;> simp [stopStreaming, h]

theorem onClose_state (n : ℕ) (s : Session) :
    (onClose n s).1 =
      if s.closed then s
      else { s with closed := true, connection := none, ff := none } := by
  by_cases h : s.closed <;> simp [onClose, h]

theorem onOpen_state (n f : ℕ) (s : Session) :
    (onOpen n f s).1 =
      { s with opened := true, startTimeMs := some n, ff := some f } := rfl

/-! ## Duration accumulation -/

theorem finalDur_eq_claimDur (d : TranscriptData) (w : Word) (rest : List Word)
    (hW : evWords d = w :: rest) (s0 e0 : ℚ)
    (hs : w.start = some s0) (hs0 : 0 ≤ s0)
    (he : (rest.getLastD w).end_ = some e0) (he0 : 0 ≤ e0) :
    finalDur w rest = claimDur d := by
  have hstart : claimStart d = s0 := by simp [claimStart, hW, hs]
  have hend : claimEnd d = e0 := by
    simp only [claimEnd, hW, getLast?_cons_getLastD, Option.some_bind, he,
      Option.getD_some]
  rw [claimDur, hstart, hend, finalDur, hs, jsOrQ_some_zero, he]
  by_cases h0 : e0 = 0
  · subst h0
    have h1 : jsOrQ (some (0 : ℚ)) s0 = s0 := by simp [jsOrQ]
    rw [h1, sub_self, zero_sub]
    rw [max_eq_left (neg_nonpos.mpr hs0), max_self]
  · simp [jsOrQ, h0]

theorem lookup0_onTranscript_goodFinal (n : ℕ) (s : Session)
    (d : TranscriptData) (id : String) (h : GoodFinal id d) :
    lookup0 (onTranscript n s d).1.speakerDurations id
      = lookup0 s.speakerDurations id + claimDur d := by
  obtain ⟨hF, hT, ⟨w, rest, hW, hid⟩, ⟨s0, hs, hs0⟩, ⟨e0, he, he0⟩⟩ := h
  have hs' : w.start = some s0 := by simpa [hW] using hs
  have he' : (rest.getLastD w).end_ = some e0 := by
    simpa [hW, getLast?_cons_getLastD] using he
  rw [onTranscript_final_eq n s d w rest hT hW hF, finalStep_fst]
  simp only [← hid]
  rw [show ({ s with wordsCount := s.wordsCount + countTokens (evText d) } :
        Session).speakerDurations = s.speakerDurations from rfl]
  rw [lookup0_mapSet_self, finalDur_eq_claimDur d w rest hW s0 e0 hs' hs0 he' he0]

theorem onTranscript_sd_shape (n : ℕ) (s : Session) (d : TranscriptData) :
    (onTranscript n s d).1.speakerDurations = s.speakerDurations ∨
    ∃ k dur, 0 ≤ dur ∧ (onTranscript n s d).1.speakerDurations
        = mapSet s.speakerDurations k (lookup0 s.speakerDurations k + dur) := by
  by_cases hT : evText d = ""
  · left; rw [onTranscript_empty_text n s d hT]
  · cases hW : evWords d with
    | nil => left; rw [onTranscript_empty_words n s d hW]
    | cons w rest =>
      cases hF : d.is_final
      · left
        rw [onTranscript_interim_eq n s d w rest hT hW hF]
        exact interimStep_sd _ _ _ _
      · right
        refine ⟨segSpeaker w, finalDur w rest, le_max_left 0 _, ?_⟩
        rw [onTranscript_final_eq n s d w rest hT hW hF, finalStep_fst]

theorem onTranscript_wordsCount (n : ℕ) (s : Session) (d : TranscriptData)
    (hT : evText d ≠ "") (hW : evWords d ≠ []) :
    (onTranscript n s d).1.wordsCount
      = s.wordsCount + countTokens (evText d) := by
  cases hW' : evWords d with
  | nil => exact absurd hW' hW
  | cons w rest =>
    cases hF : d.is_final
    · rw [onTranscript_interim_eq n s d w rest hT hW' hF, interimStep_wordsCount]
    · rw [onTranscript_final_eq n s d w rest hT hW' hF, finalStep_fst]

theorem onTranscript_wc_mono (n : ℕ) (s : Session) (d : TranscriptData) :
    s.wordsCount ≤ (onTranscript n s d).1.wordsCount := by
  by_cases hT : evText d = ""
  · rw [onTranscript_empty_text n s d hT]
  · by_cases hW : evWords d = []
    · rw [onTranscript_empty_words n s d hW]
    · rw [onTranscript_wordsCount n s d hT hW]
      exact Nat.le_add_right _ _

theorem lookup0_le_mapSet_add (m : List (String × ℚ)) (k j : String)
    (dur : ℚ) (hd : 0 ≤ dur) :
    lookup0 m j ≤ lookup0 (mapSet m k (lookup0 m k + dur)) j := by
  by_cases h : j = k
  · subst h
    rw [lookup0_mapSet_self]
    linarith
  · rw [lookup0_mapSet_ne m k j _ h]

theorem lookup0_applyOp_mono (s : Session) (op : Op) (id : String) :
    lookup0 s.speakerDurations id
      ≤ lookup0 (applyOp s op).speakerDurations id := by
  cases op with
  | transcriptEv n d =>
    rcases onTranscript_sd_shape n s d with h | ⟨k, dur, hd, h⟩
    · simp only [applyOp]
      rw [h]
    · simp only [applyOp]
      rw [h]
      exact lookup0_le_mapSet_add _ _ _ _ hd
  | stopOp n =>
    simp only [applyOp, stopStreaming_state]
    by_cases h : s.closed <;> simp [h]
  | closeOp n =>
    simp only [applyOp, onClose_state]
    by_cases h : s.closed <;> simp [h]
  | openOp n f =>
    simp [applyOp, onOpen_state]
  | audioChunk len =>
    simp [applyOp]

theorem wordsCount_applyOp_mono (s : Session) (op : Op) :
    s.wordsCount ≤ (applyOp s op).wordsCount := by
  cases op with
  | transcriptEv n d => exact onTranscript_wc_mono n s d
  | stopOp n =>
    simp only [applyOp, stopStreaming_state]
    by_cases h : s.closed <;> simp [h]
  | closeOp n =>
    simp only [applyOp, onClose_state]
    by_cases h : s.closed <;> simp [h]
  | openOp n f =>
    simp [applyOp, onOpen_state]
  | audioChunk len =>
    simp [applyOp]

theorem lookup0_runOps_mono (s : Session) (ops : List Op) (id : String) :
    lookup0 s.speakerDurations id
      ≤ lookup0 (runOps s ops).speakerDurations id := by
  induction ops generalizing s with
  | nil => simp [runOps]
  | cons op t ih =>
    exact le_trans (lookup0_applyOp_mono s op id) (ih (applyOp s op))

theorem wordsCount_runOps_mono (s : Session) (ops : List Op) :
    s.wordsCount ≤ (runOps s ops).wordsCount := by
  induction ops generalizing s with
  | nil => simp [runOps]
  | cons op t ih =>
    exact le_trans (wordsCount_applyOp_mono s op) (ih (applyOp s op))

theorem lookup0_runEvents_goodFinal (n : ℕ) (id : String)
    (evs : List TranscriptData) (s : Session)
    (h : ∀ d ∈ evs, GoodFinal id d) :
    lookup0 (runEvents n s evs).speakerDurations id
      = lookup0 s.speakerDurations id + (evs.map claimDur).sum := by
  induction evs generalizing s with
  | nil => simp [runEvents]
  | cons d t ih =>
    have hd := h d (List.mem_cons_self d t)
    have ht : ∀ e ∈ t, GoodFinal id e := fun e he =>
      h e (List.mem_cons_of_mem d he)
    simp only [runEvents, List.foldl_cons, List.map_cons, List.sum_cons]
    rw [show List.foldl (fun st e => (onTranscript n st e).1)
          ((onTranscript n s d).1) t
        = runEvents n ((onTranscript n s d).1) t from rfl]
    rw [ih _ ht, lookup0_onTranscript_goodFinal n s d id hd]
    ring

theorem onTranscript_interim_sd (n : ℕ) (s : Session) (d : TranscriptData)
    (hF : d.is_final = false) :
    (onTranscript n s d).1.speakerDurations = s.speakerDurations := by
  by_cases hT : evText d = ""
  · rw [onTranscript_empty_text n s d hT]
  · cases hW : evWords d with
    | nil => rw [onTranscript_empty_words n s d hW]
    | cons w rest =>
      rw [onTranscript_interim_eq n s d w rest hT hW hF]
      exact interimStep_sd _ _ _ _

theorem runEvents_interim_sd (n : ℕ) (s : Session)
    (evs : List TranscriptData) (h : ∀ d ∈ evs, d.is_final = false) :
    (runEvents n s evs).speakerDurations = s.speakerDurations := by
  induction evs generalizing s with
  | nil => simp [runEvents]
  | cons d t ih =>
    have hd := h d (List.mem_cons_self d t)
    have ht : ∀ e ∈ t, e.is_final = false := fun e he =>
      h e (List.mem_cons_of_mem d he)
    simp only [runEvents, List.foldl_cons]
    rw [show List.foldl (fun st e => (onTranscript n st e).1)
          ((onTranscript n s d).1) t
        = runEvents n ((onTranscript n s d).1) t from rfl]
    rw [ih _ ht, onTranscript_interim_sd n s d hd]

theorem stopStreaming_closed_noop (n : ℕ) (s : Session) (h : s.closed = true) :
    stopStreaming n s = ⟨s, [], [], []⟩ := by
  simp [stopStreaming, h]

theorem stopStreaming_state_closed (n : ℕ) (s : Session) :
    (stopStreaming n s).state.closed = true := by
  rw [stopStreaming_state]
  by_cases h : s.closed <;> simp [h]

/-! ## The claims -/

/-- C1: over any run of non-ignored final recognition events all
attributed to speaker `id` (each with the first word's `start` and the
last word's `end` present and non-negative), the accumulated
`speakerDurations[id]` grows by exactly the sum of `max(0, end - start)`
over those events; and across any sequence of coordinator operations the
accumulated value never decreases. -/
theorem speakerDurations_final_sum_monotone (n : ℕ) (id : String)
    (evs : List TranscriptData) (s : Session)
    (h : ∀ d ∈ evs, GoodFinal id d) :
    lookup0 (runEvents n s evs).speakerDurations id
      = lookup0 s.speakerDurations id + (evs.map claimDur).sum
    ∧ ∀ ops : List Op, lookup0 s.speakerDurations id
        ≤ lookup0 (runOps s ops).speakerDurations id :=
  ⟨lookup0_runEvents_goodFinal n id evs s h,
   fun ops => lookup0_runOps_mono s ops id⟩

/-- C1 witness: the scenario of §8 of the specification — one final event
for speaker `0` with `start = 1`, `end = 7/2`, text `"hello world"`,
applied to the pristine session, credits speaker `0` exactly `5/2`. -/
theorem speakerDurations_final_sum_monotone_witness :
    (∀ d ∈ [sampleFinalEv], GoodFinal ("0") d)
    ∧ lookup0 (runEvents 0 initialSession [sampleFinalEv]).speakerDurations
        ("0")
      = lookup0 initialSession.speakerDurations ("0")
        + ([sampleFinalEv].map claimDur).sum := by
  have hg : ∀ d ∈ [sampleFinalEv], GoodFinal ("0") d := by
    intro d hd
    have hd' : d = sampleFinalEv := by simpa using hd
    subst hd'
    exact ⟨rfl, by decide, ⟨_, _, rfl, rfl⟩, ⟨1, rfl, by norm_num⟩,
      ⟨7/2, rfl, by norm_num⟩⟩
  exact ⟨hg,
    (speakerDurations_final_sum_monotone 0 ("0") [sampleFinalEv]
      initialSession hg).1⟩

/-- C4: interim (partial) recognition events never change
`speakerDurations` — for any number of events, any speakers, any session
state. -/
theorem interim_events_preserve_durations (n : ℕ) (s : Session)
    (evs : List TranscriptData) (h : ∀ d ∈ evs, d.is_final = false) :
    (runEvents n s evs).speakerDurations = s.speakerDurations :=
  runEvents_interim_sd n s evs h

/-- C4 witness: two interim events in a row leave `sampleActive`'s
durations exactly as they were. -/
theorem interim_events_preserve_durations_witness :
    (∀ d ∈ [sampleInterimEv, sampleInterimEv], d.is_final = false)
    ∧ (runEvents 3 sampleActive
        [sampleInterimEv, sampleInterimEv]).speakerDurations
      = sampleActive.speakerDurations := by
  have h : ∀ d ∈ [sampleInterimEv, sampleInterimEv], d.is_final = false := by
    intro d hd
    rcases (by simpa using hd : d = sampleInterimEv ∨ d = sampleInterimEv)
      with h1 | h1 <;> (subst h1; rfl)
  exact ⟨h, interim_events_preserve_durations 3 sampleActive
    [sampleInterimEv, sampleInterimEv] h⟩

/-- C9: every non-ignored event — final or interim alike — adds exactly
the number of whitespace-delimited tokens of its text to `wordsCount`, and
`wordsCount` never decreases across any sequence of coordinator
operations (so interim re-transcriptions of one utterance each count
again). -/
theorem wordsCount_tokens_and_monotone (n : ℕ) (s : Session)
    (d : TranscriptData) (hT : evText d ≠ "") (hW : evWords d ≠ []) :
    (onTranscript n s d).1.wordsCount
      = s.wordsCount + countTokens (evText d)
    ∧ ∀ ops : List Op, s.wordsCount ≤ (runOps s ops).wordsCount :=
  ⟨onTranscript_wordsCount n s d hT hW,
   fun ops => wordsCount_runOps_mono s ops⟩

/-- C9 witness: the interim `"hello world"` event adds `2` to
`sampleActive`'s word count (interim events count too). -/
theorem wordsCount_tokens_and_monotone_witness :
    evText sampleInterimEv ≠ "" ∧ evWords sampleInterimEv ≠ []
    ∧ (onTranscript 0 sampleActive sampleInterimEv).1.wordsCount
        = sampleActive.wordsCount + countTokens (evText sampleInterimEv) :=
  ⟨by decide, by decide,
   (wordsCount_tokens_and_monotone 0 sampleActive sampleInterimEv
     (by decide) (by decide)).1⟩

/-- C10: the final branch is total on malformed word timing: for every
processed final event the duration credited to the segment speaker is
`finalDur`, which is never negative; a missing or falsy first-word
`start` is read as `0`, and a missing or falsy last-word `end` collapses
the segment (`end := start`), making the added duration exactly `0`. -/
theorem final_malformed_timing_safe (n : ℕ) (s : Session)
    (d : TranscriptData) (w : Word) (rest : List Word)
    (hT : evText d ≠ "") (hW : evWords d = w :: rest)
    (hF : d.is_final = true) :
    lookup0 (onTranscript n s d).1.speakerDurations (segSpeaker w)
      = lookup0 s.speakerDurations (segSpeaker w) + finalDur w rest
    ∧ 0 ≤ finalDur w rest
    ∧ (w.start = none ∨ w.start = some 0 → jsOrQ w.start 0 = 0)
    ∧ ((rest.getLastD w).end_ = none ∨ (rest.getLastD w).end_ = some 0 →
        finalDur w rest = 0) := by
  refine ⟨?_, le_max_left 0 _, ?_, ?_⟩
  · rw [onTranscript_final_eq n s d w rest hT hW hF, finalStep_fst]
    rw [show ({ s with wordsCount := s.wordsCount + countTokens (evText d) } :
          Session).speakerDurations = s.speakerDurations from rfl]
    rw [lookup0_mapSet_self]
  · rintro (h | h) <;> simp [jsOrQ, h]
  · rintro (h | h) <;>
      (rw [List.getLastD_eq_getLast?] at h; simp [finalDur, jsOrQ, h])

/-- C10 witness: a final event whose only word has neither `start` nor
`end` credits speaker `1` exactly `0` extra seconds. -/
theorem final_malformed_timing_safe_witness :
    evText sampleMalformedEv ≠ ""
    ∧ evWords sampleMalformedEv = [⟨none, none, some ("1")⟩]
    ∧ sampleMalformedEv.is_final = true
    ∧ lookup0 (onTranscript 0 initialSession
        sampleMalformedEv).1.speakerDurations
          (segSpeaker ⟨none, none, some ("1")⟩)
      = lookup0 initialSession.speakerDurations
          (segSpeaker ⟨none, none, some ("1")⟩)
        + finalDur ⟨none, none, some ("1")⟩ []
    ∧ finalDur ⟨none, none, some ("1")⟩ [] = 0 :=
  ⟨by decide, rfl, rfl,
   (final_malformed_timing_safe 0 initialSession sampleMalformedEv
      ⟨none, none, some ("1")⟩ [] (by decide) rfl rfl).1,
   (final_malformed_timing_safe 0 initialSession sampleMalformedEv
      ⟨none, none, some ("1")⟩ [] (by decide) rfl rfl).2.2.2 (Or.inl rfl)⟩

/-- C2 counterexample: stop `sampleActive`, so the next snapshot is
`idle` and `closed` is latched — yet delivering `sampleFinalEv` on the old
(already-finished) connection still adds `2` words, still changes
`speakerDurations`, and still emits notifications: the `Transcript`
handler never consults the `closed` latch, so the event is not rejected. -/
theorem transcript_after_stop_mutates_cex :
    (analyticsSnapshot (stopStreaming 1000 sampleActive).state 1000).status
      = "idle"
    ∧ (stopStreaming 1000 sampleActive).state.closed = true
    ∧ (onTranscript 1000 (stopStreaming 1000 sampleActive).state
        sampleFinalEv).1.wordsCount
      = (stopStreaming 1000 sampleActive).state.wordsCount + 2
    ∧ lookup0 (onTranscript 1000 (stopStreaming 1000 sampleActive).state
        sampleFinalEv).1.speakerDurations ("0")
      = lookup0 (stopStreaming 1000 sampleActive).state.speakerDurations
          ("0") + 5/2
    ∧ (onTranscript 1000 (stopStreaming 1000 sampleActive).state
        sampleFinalEv).2 ≠ [] := by
  have hg : GoodFinal ("0") sampleFinalEv :=
    ⟨rfl, by decide, ⟨_, _, rfl, rfl⟩, ⟨1, rfl, by norm_num⟩,
     ⟨7/2, rfl, by norm_num⟩⟩
  have hdur : claimDur sampleFinalEv = 5/2 := by
    have h1 : claimStart sampleFinalEv = 1 := rfl
    have h2 : claimEnd sampleFinalEv = 7/2 := rfl
    rw [claimDur, h1, h2]
    rw [show (7 : ℚ)/2 - 1 = 5/2 by norm_num]
    exact max_eq_right (by norm_num)
  refine ⟨rfl, stopStreaming_state_closed 1000 sampleActive, ?_, ?_, ?_⟩
  · rw [onTranscript_wordsCount 1000 _ sampleFinalEv (by decide) (by decide)]
    decide
  · rw [lookup0_onTranscript_goodFinal 1000 _ sampleFinalEv ("0") hg, hdur]
  · rw [onTranscript_final_eq 1000 _ sampleFinalEv
      ⟨some 1, none, some ("0")⟩ [⟨none, some (7/2), none⟩]
      (by decide) rfl rfl]
    exact finalStep_msgs_ne_nil _ _ _ _ _

/-- C2 (amended): after `stop()` latches a session, the next snapshot does
report `idle`; but a further recognition event for the old session is
*not* rejected — any non-ignored event still adds its token count to
`wordsCount` and still emits at least one notification, because the
`Transcript` handler has no `closed` guard. -/
theorem transcript_after_stop_not_rejected (s : Session) (n n2 : ℕ)
    (d : TranscriptData) (hc : s.closed = false)
    (hT : evText d ≠ "") (hW : evWords d ≠ []) :
    (analyticsSnapshot (stopStreaming n s).state n).status = "idle"
    ∧ (onTranscript n2 (stopStreaming n s).state d).1.wordsCount
        = (stopStreaming n s).state.wordsCount + countTokens (evText d)
    ∧ (onTranscript n2 (stopStreaming n s).state d).2 ≠ [] := by
  refine ⟨?_, onTranscript_wordsCount _ _ _ hT hW, ?_⟩
  · rw [stopStreaming_state]
    simp [hc, analyticsSnapshot]
  · cases hW' : evWords d with
    | nil => exact absurd hW' hW
    | cons w rest =>
      cases hF : d.is_final
      · rw [onTranscript_interim_eq _ _ _ w rest hT hW' hF]
        exact interimStep_msgs_ne_nil _ _ _ _
      · rw [onTranscript_final_eq _ _ _ w rest hT hW' hF]
        exact finalStep_msgs_ne_nil _ _ _ _ _

/-- C2 witness: the amended statement at `sampleActive` and
`sampleFinalEv`. -/
theorem transcript_after_stop_not_rejected_witness :
    sampleActive.closed = false ∧ evText sampleFinalEv ≠ ""
    ∧ evWords sampleFinalEv ≠ []
    ∧ (analyticsSnapshot (stopStreaming 1000 sampleActive).state 1000).status
        = "idle" :=
  ⟨rfl, by decide, by decide,
   (transcript_after_stop_not_rejected sampleActive 1000 1000 sampleFinalEv
     rfl (by decide) (by decide)).1⟩

/-- C3 counterexample: a start with an unresolvable URL over the live
`sampleActive` session fails — but session state *is* mutated: the prior
session is stopped (its `closed` flag, `false` before, is latched `true`
and a snapshot is broadcast) and the coordinator's current state is a
fresh record whose `speakerDurations` is empty, not the prior `{0: 5}`. -/
theorem resolution_failure_mutates_cex :
    (startStreamingModel 300 sampleActive false (some ("bad-url")) none
        ResolveOutcome.err 2).ok = false
    ∧ (startStreamingModel 300 sampleActive false (some ("bad-url")) none
        ResolveOutcome.err 2).state.speakerDurations = []
    ∧ sampleActive.speakerDurations = [(("0" : String), (5 : ℚ))]
    ∧ (stopStreaming 300 sampleActive).state.closed = true
    ∧ sampleActive.closed = false
    ∧ (startStreamingModel 300 sampleActive false (some ("bad-url")) none
        ResolveOutcome.err 2).msgs ≠ [] := by
  refine ⟨rfl, rfl, rfl, stopStreaming_state_closed 300 sampleActive, rfl, ?_⟩
  exact List.cons_ne_nil _ _

/-- C3 (amended): resolution failure does surface as a start failure
(`500` to the caller), and after the failure nothing further is mutated —
but `startStreaming` has already stopped the prior session and installed a
fresh record *before* resolving, so the post-failure state is exactly the
fresh session (status `idle`, empty durations), not the prior session's
accumulated state. -/
theorem resolution_failure_fresh_idle (n : ℕ) (s : Session) (url : String)
    (dev : Option String) (c : ℕ) (hurl : url ≠ "") :
    (startStreamingModel n s false (some url) dev ResolveOutcome.err c).ok
      = false
    ∧ (startEndpoint n s false (some url) dev ResolveOutcome.err c).2
        = RestResp.serverError
    ∧ (startStreamingModel n s false (some url) dev ResolveOutcome.err c).state
        = freshSession false (some url) dev
    ∧ (analyticsSnapshot (startStreamingModel n s false (some url) dev
        ResolveOutcome.err c).state n).status = "idle" := by
  have hres : needsResolve false (some url) = true := by
    simp [needsResolve, jsTruthyStr, hurl]
  refine ⟨?_, ?_, ?_, ?_⟩ <;>
    simp [startStreamingModel, startEndpoint, hres, jsTruthyStr, hurl,
      analyticsSnapshot, freshSession]

/-- C3 witness: the amended statement at `sampleActive` with URL
`"bad-url"`. -/
theorem resolution_failure_fresh_idle_witness :
    ("bad-url" : String) ≠ ""
    ∧ (startStreamingModel 300 sampleActive false (some ("bad-url")) none
        ResolveOutcome.err 2).state
      = freshSession false (some ("bad-url")) none :=
  ⟨by decide,
   (resolution_failure_fresh_idle 300 sampleActive ("bad-url") none 2
     (by decide)).2.2.1⟩

/-- C5, the code evaluated at the failing input: stopping `sampleActive`
(ffmpeg pid `7`) sends `SIGINT` at once and schedules the `SIGTERM`/
`SIGKILL` timers — but it also nulls `current.ff` synchronously, so when
either timer fires its guard `current.ff && !current.ff.killed` reads
`none` and *no* escalation signal is ever delivered to pid `7`, however
long it ignores `SIGINT`; and if a newer session's process (pid `9`) owns
`current.ff` at fire time, the stale timer signals that different
process. -/
theorem stop_escalation_dead_cex :
    (stopStreaming 0 sampleActive).signalsNow = [(7, "SIGINT")]
    ∧ (stopStreaming 0 sampleActive).timers
        = [⟨500, "SIGTERM"⟩, ⟨1500, "SIGKILL"⟩]
    ∧ (stopStreaming 0 sampleActive).state.ff = none
    ∧ escalationFire (stopStreaming 0 sampleActive).state.ff
        (fun _ => false) ("SIGTERM") = none
    ∧ escalationFire (stopStreaming 0 sampleActive).state.ff
        (fun _ => false) ("SIGKILL") = none
    ∧ escalationFire (some 9) (fun _ => false) ("SIGTERM")
        = some (9, "SIGTERM") :=
  ⟨rfl, rfl, rfl, rfl, rfl, rfl⟩

/-- C6 counterexample: after a first `stop()` (which latches the pristine
session) a new start installs a fresh record and, while its URL is still
resolving, the session is `idle` with `closed = false`; a second `stop()`
arriving then is *not* a no-op: it latches `closed` and broadcasts a
snapshot. -/
theorem stop_on_idle_not_noop_cex :
    (stopStreaming 0 initialSession).state.closed = true
    ∧ (analyticsSnapshot (freshSession false (some ("u")) none) 5).status
        = "idle"
    ∧ (freshSession false (some ("u")) none).closed = false
    ∧ (stopStreaming 5 (freshSession false (some ("u")) none)).state
        ≠ freshSession false (some ("u")) none
    ∧ (stopStreaming 5 (freshSession false (some ("u")) none)).msgs ≠ [] := by
  refine ⟨stopStreaming_state_closed 0 initialSession, rfl, rfl, ?_, ?_⟩
  · intro h
    have h2 : (stopStreaming 5 (freshSession false (some ("u")) none)).state.closed
        = (freshSession false (some ("u")) none).closed := by rw [h]
    rw [stopStreaming_state_closed] at h2
    exact absurd h2.symm (by decide)
  · exact List.cons_ne_nil _ _

/-- C6 (amended): a second `stop()` after any `stop()` is a genuine no-op
— the state is already latched `closed`, so nothing changes, no signal is
sent, no timer is scheduled, and no notification is emitted — and
`POST /stop` always answers success; the no-op guard is the `closed`
latch alone, so a stop on an idle-but-unlatched session still mutates
(see the counterexample). -/
theorem stop_idempotent_when_latched (n n2 : ℕ) (s : Session) :
    stopStreaming n2 (stopStreaming n s).state
      = ⟨(stopStreaming n s).state, [], [], []⟩
    ∧ (stopEndpoint n s).2 = RestResp.okResp :=
  ⟨stopStreaming_closed_noop n2 _ (stopStreaming_state_closed n s), rfl⟩

/-- C7: a start request indicating neither microphone nor a (truthy) URL
is rejected with `400` before anything runs: the returned state is the
very session passed in, untouched in every field. -/
theorem start_without_source_rejected (n : ℕ) (s : Session)
    (url : Option String) (dev : Option String) (res : ResolveOutcome)
    (c : ℕ) (hurl : jsTruthyStr url = false) :
    startEndpoint n s false url dev res c = (s, RestResp.badRequest) := by
  simp [startEndpoint, hurl]

/-- C7 witness: `{mic: false}` with no URL against the live
`sampleActive` session: `400`, state identical. -/
theorem start_without_source_rejected_witness :
    jsTruthyStr none = false
    ∧ startEndpoint 0 sampleActive false none none ResolveOutcome.err 2
        = (sampleActive, RestResp.badRequest) :=
  ⟨rfl, start_without_source_rejected 0 sampleActive none none
    ResolveOutcome.err 2 rfl⟩

/-- C8 counterexample: `sampleActive` ran on channel `1`, so its fail-fast
timer was armed for channel `1`; a new start supersedes it and is still
connecting on channel `2` (`opened = false`) when the stale timer fires —
and the timer, whose guard reads only the global current state, finishes
channel `2`: the newer session's channel, exactly what the claim says
never happens. -/
theorem failfast_finishes_newer_channel_cex :
    sampleActive.connection = some 1
    ∧ (startStreamingModel 20 sampleActive false (some ("u2")) none
        (ResolveOutcome.ok ("media")) 2).state.connection = some 2
    ∧ (startStreamingModel 20 sampleActive false (some ("u2")) none
        (ResolveOutcome.ok ("media")) 2).state.opened = false
    ∧ failFastFire (startStreamingModel 20 sampleActive false (some ("u2"))
        none (ResolveOutcome.ok ("media")) 2).state = some 2 :=
  ⟨rfl, rfl, rfl, rfl⟩

/-- C8 (amended): the fail-fast closure consults only the global state at
fire time: whenever `opened` is false and *some* connection is current —
whichever session owns it — it finishes that connection, after which the
`Close` handler latches the session and the next snapshot is `idle` with
`speakerDurations` untouched; and it does nothing exactly when there is
no current connection (stopped) or the current session has opened. -/
theorem failfast_guard_global_state (s : Session) (c n : ℕ)
    (hc : s.connection = some c) (hop : s.opened = false)
    (hcl : s.closed = false) :
    failFastFire s = some c
    ∧ (analyticsSnapshot (onClose n s).1 n).status = "idle"
    ∧ (onClose n s).1.speakerDurations = s.speakerDurations
    ∧ ∀ s2 : Session,
        failFastFire s2 = none ↔ (s2.connection = none ∨ s2.opened = true) := by
  refine ⟨?_, ?_, ?_, ?_⟩
  · simp [failFastFire, hc, hop]
  · rw [onClose_state]
    simp [hcl, analyticsSnapshot]
  · rw [onClose_state]
    simp [hcl]
  · intro s2
    cases hc2 : s2.connection with
    | none => simp [failFastFire, hc2]
    | some c2 =>
      cases hop2 : s2.opened <;> simp [failFastFire, hc2, hop2]

/-- C8 witness: the amended statement at `sampleActive` with `opened`
still false. -/
theorem failfast_guard_global_state_witness :
    ({ sampleActive with opened := false } : Session).connection = some 1
    ∧ ({ sampleActive with opened := false } : Session).opened = false
    ∧ ({ sampleActive with opened := false } : Session).closed = false
    ∧ failFastFire { sampleActive with opened := false } = some 1 :=
  ⟨rfl, rfl, rfl,
   (failfast_guard_global_state { sampleActive with opened := false } 1 0
     rfl rfl rfl).1⟩

end DGG
